import Mathlib

/-!
Verification development for nautobot/utilities/forms/forms.py.

We give a shallow embedding of the form classes in that module:
Python dicts with string keys become association lists (with Python's
update-in-place-or-append semantics), parse results of the external
json/yaml/re libraries become explicit Except/Bool parameters, and
widget/field mutation becomes pure record updates.
-/

namespace Nautobot

/-! ## Python dict primitives

Association lists with string keys, mirroring Python dict semantics:
lookup returns the value of the first (unique) matching key, assignment
overwrites in place when the key is present and appends otherwise.
-/

def pyGet {α : Type} : List (String × α) → String → Option α
  | [], _ => Option.none
  | (k, v) :: rest, key => if k = key then some v else pyGet rest key

def pySet {α : Type} : List (String × α) → String → α → List (String × α)
  | [], key, v => [(key, v)]
  | (k, w) :: rest, key, v =>
    if k = key then (key, v) :: rest else (k, w) :: pySet rest key v

/-- Python in-place mutation of the value stored at a key that is already present
(`d[k].f = ...` style update). -/
def pyUpdate {α : Type} : List (String × α) → String → (α → α) → List (String × α)
  | [], _, _ => []
  | (k, v) :: rest, key, f =>
    if k = key then (k, f v) :: rest else (k, v) :: pyUpdate rest key f

/-! ## Python substring test (`pat in s`) -/

/-- Does the second list start with the first one? -/
def isHeadSeq : List Char → List Char → Bool
  | [], _ => true
  | _ :: _, [] => false
  | a :: as, b :: bs => a == b && isHeadSeq as bs

def strContainsL (pat : List Char) : List Char → Bool
  | [] => pat.isEmpty
  | c :: cs => isHeadSeq pat (c :: cs) || strContainsL pat cs

/-- Python's `pat in s` substring test. -/
def strContains (s pat : String) : Bool :=
  strContainsL pat.toList s.toList

/-! ## Python values (JSON/YAML parse results) -/

inductive PyValue where
  | none
  | bool (b : Bool)
  | int (n : Int)
  | str (s : String)
  | list (xs : List PyValue)
  | dict (xs : List (String × PyValue))

/-- Python's `isinstance(v, dict)`. -/
def PyValue.isDict : PyValue → Bool
  | .dict _ => true
  | _ => false

/-! ## ImportForm (lines 178-212)

`clean` reads `cleaned_data["data"]` and `cleaned_data["format"]`; the
format ChoiceField only admits "json" and "yaml".  The calls
`json.loads(data)` and `yaml.load(data, Loader=yaml.SafeLoader)` are
external library calls; their outcomes are passed in as `Except` values
(`.error err` standing for a raised `json.decoder.JSONDecodeError`
resp. `yaml.error.YAMLError` whose formatted message is `err`).
A `forms.ValidationError({field: msg})` becomes `.error ⟨field, msg⟩`.
-/

inductive ImportFormat where
  | json
  | yaml

structure FieldError where
  field : String
  message : String

def singleObjectMsg : String := "Import is limited to one object at a time."

def ImportForm.clean (format : ImportFormat) (data : String)
    (jsonLoads : Except String PyValue) (yamlLoad : Except String PyValue) :
    Except FieldError PyValue :=
  match format with
  | .json =>
    -- try: cleaned_data["data"] = json.loads(data); isinstance check
    -- except json.decoder.JSONDecodeError  (the ValidationError raised by
    -- the isinstance check is not a JSONDecodeError, so it propagates)
    match jsonLoads with
    | .ok v =>
      if v.isDict then .ok v
      else .error ⟨"data", singleObjectMsg⟩
    | .error err => .error ⟨"data", "Invalid JSON data: " ++ err⟩
  | .yaml =>
    -- Check for multiple YAML documents before parsing
    if strContains data "\n---" then .error ⟨"data", singleObjectMsg⟩
    else
      match yamlLoad with
      | .ok v => .ok v
      | .error err => .error ⟨"data", "Invalid YAML data: " ++ err⟩

/-! ## BulkRenameForm (lines 114-131)

`clean` performs two raw dict lookups on `cleaned_data` (`use_regex`,
then `find` inside the regex branch); a key absent from `cleaned_data`
(because its field-level validation failed) raises `KeyError`.  The
external `re.compile` call is modelled by a Bool-valued oracle telling
whether it raises `re.error` on the given pattern.
-/

inductive CleanOutcome where
  | ok
  | validationError (field message : String)
  | keyError (key : String)

def BulkRenameForm.clean (useRegexVal : Option Bool) (findVal : Option String)
    (reCompileRaises : String → Bool) : CleanOutcome :=
  match useRegexVal with
  | Option.none => .keyError "use_regex"
  | some ur =>
    if ur then
      match findVal with
      | Option.none => .keyError "find"
      | some f =>
        if reCompileRaises f then .validationError "find" "Invalid regular expression"
        else .ok
    else .ok

/-! ## Widgets and form fields

A widget is modelled by its (exact) Python class together with its
`attrs` dict; `api_url` carries the constructor argument of
`APISelect`/`APISelectMultiple` widgets.  A form field carries the data
the embedded code inspects: its kind (with choices where relevant), its
`required` flag, its `label` and its widget.  Python `None` labels are
out of scope; labels are modelled as strings.
-/

inductive WidgetClass where
  | checkboxInput
  | clearableFileInput
  | fileInput
  | radioSelect
  | textInput
  | textarea
  | select
  | selectMultiple
  | hiddenInput
  | staticSelect2
  | apiSelectMultiple
deriving DecidableEq

structure Widget where
  cls : WidgetClass
  attrs : List (String × String)
  api_url : Option String

inductive FieldKind where
  | charField
  | choiceField (choices : List (Option String × Option String))
  | booleanField
  | multipleChoiceField (choices : List (Option String × Option String))

structure FormField where
  kind : FieldKind
  required : Bool
  label : String
  widget : Widget
  initial : List String

/-! ## Python str.strip() -/

/-- The characters Python str.strip() removes: those for which
str.isspace() holds (the Unicode whitespace set: U+0009..U+000D,
U+001C..U+001F, space, NEL, NBSP, Ogham space, U+2000..U+200A, the line
and paragraph separators, NNBSP, MMSP and the ideographic space). -/
def isPySpace (c : Char) : Bool :=
  (0x09 ≤ c.toNat && c.toNat ≤ 0x0d) || c == ' ' ||
  (0x1c ≤ c.toNat && c.toNat ≤ 0x1f) ||
  c.toNat == 0x85 || c.toNat == 0xa0 || c.toNat == 0x1680 ||
  (0x2000 ≤ c.toNat && c.toNat ≤ 0x200a) ||
  c.toNat == 0x2028 || c.toNat == 0x2029 || c.toNat == 0x202f ||
  c.toNat == 0x205f || c.toNat == 0x3000

def lstripL (l : List Char) : List Char := l.dropWhile isPySpace

def stripL (l : List Char) : List Char :=
  ((lstripL l).reverse.dropWhile isPySpace).reverse

/-- Python `s.strip()`. -/
def pyStrip (s : String) : String := String.mk (stripL s.data)

/-! ## BootstrapMixin (lines 55-77)

`__init__` walks every field of the form and mutates its widget attrs:
it appends "form-control" to the css class unless the widget's exact
class is exempt, sets `required="required"` on required fields whose
widget is not an instance of FileInput (ClearableFileInput is a
subclass of FileInput), and defaults the placeholder to the label.
-/

def exempt_widgets : List WidgetClass :=
  [.checkboxInput, .clearableFileInput, .fileInput, .radioSelect]

/-- Python `isinstance(w, forms.FileInput)`: ClearableFileInput
subclasses FileInput. -/
def isinstanceFileInput : WidgetClass → Bool
  | .fileInput => true
  | .clearableFileInput => true
  | _ => false

def BootstrapMixin.processField (field : FormField) : FormField :=
  let w0 := field.widget
  let w1 :=
    if exempt_widgets.contains w0.cls then w0
    else
      -- css = field.widget.attrs.get("class", "")
      -- field.widget.attrs["class"] = " ".join([css, "form-control"]).strip()
      let css := (pyGet w0.attrs "class").getD ""
      { w0 with attrs := pySet w0.attrs "class" (pyStrip (css ++ " " ++ "form-control")) }
  let w2 :=
    if field.required && !(isinstanceFileInput w1.cls) then
      { w1 with attrs := pySet w1.attrs "required" "required" }
    else w1
  let w3 :=
    if (pyGet w2.attrs "placeholder").isNone then
      { w2 with attrs := pySet w2.attrs "placeholder" field.label }
    else w2
  { field with widget := w3 }

def BootstrapMixin.initFields (fields : List (String × FormField)) :
    List (String × FormField) :=
  fields.map (fun p => (p.1, BootstrapMixin.processField p.2))

/-- The attrs dict of a field's widget after the css-class step of
BootstrapMixin (first if of processField). -/
def bootstrapStage1 (field : FormField) : List (String × String) :=
  if exempt_widgets.contains field.widget.cls then field.widget.attrs
  else pySet field.widget.attrs "class"
    (pyStrip ((pyGet field.widget.attrs "class").getD "" ++ " " ++ "form-control"))

/-- The attrs dict after the required-marking step (second if). -/
def bootstrapStage2 (field : FormField) : List (String × String) :=
  if field.required && !(isinstanceFileInput field.widget.cls) then
    pySet (bootstrapStage1 field) "required" "required"
  else bootstrapStage1 field

/-- The attrs dict after the placeholder step (third if). -/
def bootstrapStage3 (field : FormField) : List (String × String) :=
  if (pyGet (bootstrapStage2 field) "placeholder").isNone then
    pySet (bootstrapStage2 field) "placeholder" field.label
  else bootstrapStage2 field

/-! ## AddressFieldMixin (lines 26-52) and PrefixFieldMixin (lines 149-175)

`__init__` copies the `initial` kwarg and, when the key is absent and an
instance was passed, seeds it from the instance's computed attribute;
`clean` writes `cleaned_data.get(...)` back onto the instance attribute
(so the subsequent `Model.clean()` validates the submitted value).
-/

structure AddressInstance where
  address : PyValue

structure PrefixInstance where
  pfxAttr : PyValue

def AddressFieldMixin.initInitial (initial : List (String × PyValue))
    (inst0 : Option AddressInstance) : List (String × PyValue) :=
  if (pyGet initial "address").isNone then
    match inst0 with
    | some inst => pySet initial "address" inst.address
    | Option.none => initial
  else initial

def AddressFieldMixin.clean (inst0 : AddressInstance)
    (cleaned_data : List (String × PyValue)) : AddressInstance :=
  { inst0 with address := (pyGet cleaned_data "address").getD PyValue.none }

def PrefixFieldMixin.initInitial (initial : List (String × PyValue))
    (inst0 : Option PrefixInstance) : List (String × PyValue) :=
  if (pyGet initial "prefix").isNone then
    match inst0 with
    | some inst => pySet initial "prefix" inst.pfxAttr
    | Option.none => initial
  else initial

def PrefixFieldMixin.clean (inst0 : PrefixInstance)
    (cleaned_data : List (String × PyValue)) : PrefixInstance :=
  { inst0 with pfxAttr := (pyGet cleaned_data "prefix").getD PyValue.none }

/-! ## DynamicFilterForm (lines 241-335)

The form's model comes from the class attribute `DynamicFilterForm.model`
(set by `dynamic_formset_factory`); the external collaborators
`get_filterset_for_model(...).base_filters`, `build_lookup_label` and
`get_filterset_field_data` are passed in as parameters.
-/

structure Model where
  app_label : String
  model_name : String

/-- One entry of `get_filterset_for_model(model).base_filters`. -/
structure BaseFilter where
  label : Option String
  field_name : String

/-- The dict returned by `get_filterset_field_data(model, field_name, choice)`. -/
structure FilterFieldData where
  type : String
  allow_multiple : Bool
  choices : List (Option String × Option String)
  data_url : String
  content_type : Option String
  value_field : Option String

/-- The class-level fields of DynamicFilterForm: `lookup_field` and
`lookup_type` are ChoiceFields (default Select widget), `value` a plain
CharField (default TextInput widget). -/
def DynamicFilterForm.classFields : List (String × FormField) :=
  [("lookup_field",
    { kind := FieldKind.choiceField [], required := false, label := "Field",
      widget := { cls := WidgetClass.select, attrs := [], api_url := Option.none },
      initial := [] }),
   ("lookup_type",
    { kind := FieldKind.choiceField [], required := false, label := "",
      widget := { cls := WidgetClass.select, attrs := [], api_url := Option.none },
      initial := [] }),
   ("value",
    { kind := FieldKind.charField, required := false, label := "",
      widget := { cls := WidgetClass.textInput, attrs := [], api_url := Option.none },
      initial := [] })]

def capitalizeWord (w : String) : String := (w.take 1).toUpper ++ w.drop 1

/-- Static method capitalize: uppercase the first word's first letter and join the
underscore-separated words with spaces.  (Python raises IndexError when
the first word is empty; that input does not occur.) -/
def DynamicFilterForm.capitalize (field : String) : String :=
  match field.splitOn "_" with
  | [] => ""
  | d0 :: rest => String.intercalate " " (capitalizeWord d0 :: rest)

/-- Python's `a or b` for an optional string: `None` and `""` are falsy. -/
def pyOrStr (l : Option String) (d : String) : String :=
  match l with
  | some s => if s = "" then d else s
  | Option.none => d

def DynamicFilterForm.get_lookup_expr_choices
    (base_filters : List (String × BaseFilter)) : List (String × String) :=
  (base_filters.filter (fun p => !(strContains p.1 "__"))).map
    (fun p => (p.1, pyOrStr p.2.label (DynamicFilterForm.capitalize p.2.field_name)))

def DynamicFilterForm.select_or_input_data (fields : List (String × FormField))
    (fieldData : FilterFieldData) (choice : List String) :
    List (String × FormField) :=
  if fieldData.type = "static-choices" then
    let attr : List (String × String) :=
      if fieldData.allow_multiple then [("multiple", "true")] else []
    pySet fields "value"
      { kind := FieldKind.choiceField fieldData.choices, required := false,
        label := "",
        widget := { cls := WidgetClass.staticSelect2, attrs := attr,
                    api_url := Option.none },
        initial := choice }
  else if fieldData.type = "dynamic-choices" then
    let api_attr : List (String × String) :=
      (match fieldData.content_type with
       | some ct => [("data-query-param-content_types", ct)]
       | Option.none => []) ++
      (match fieldData.value_field with
       | some vf => [("value-field", vf)]
       | Option.none => [])
    pySet fields "value"
      { kind := FieldKind.choiceField fieldData.choices, required := false,
        label := "",
        widget := { cls := WidgetClass.apiSelectMultiple, attrs := api_attr,
                    api_url := some fieldData.data_url },
        initial := choice }
  else fields

/-- Truthiness of the `data` kwarg (a QueryDict: falsy iff empty/absent). -/
def pyTruthyDict (d : Option (List (String × List String))) : Bool :=
  match d with
  | some l => !l.isEmpty
  | Option.none => false

/-- Truthiness of an optional string kwarg. -/
def pyTruthyStr (s : Option String) : Bool :=
  match s with
  | some str => !(str == "")
  | Option.none => false

/-- Method getlist of QueryDict: the list stored at the key, `[]` when absent. -/
def getlist (d : List (String × List String)) (k : String) : List String :=
  (pyGet d k).getD []

/-- Constructor of DynamicFilterForm: Bootstrap processing of the class
fields (via super), lookup_field choices and css class, conditional
population of lookup_type/value from bound data, lookup_type widget
attrs, and the value css class append. -/
def DynamicFilterForm.initFields (m : Model)
    (base_filters : List (String × BaseFilter))
    (build_lookup_label : String → String)
    (get_filterset_field_data : String → List String → FilterFieldData)
    (data : Option (List (String × List String)))
    (pfx : Option String) : List (String × FormField) :=
  let fields0 := BootstrapMixin.initFields DynamicFilterForm.classFields
  let contenttype := m.app_label ++ "." ++ m.model_name
  let lookupChoices : List (Option String × Option String) :=
    (Option.none, Option.none) ::
      (DynamicFilterForm.get_lookup_expr_choices base_filters).map
        (fun p => (some p.1, some p.2))
  let fields1 := pyUpdate fields0 "lookup_field"
    (fun f => { f with kind := FieldKind.choiceField lookupChoices })
  let fields2 := pyUpdate fields1 "lookup_field"
    (fun f =>
      let w := f.widget
      let a := pySet w.attrs "class" "nautobot-select2-static lookup_field-select"
      { f with widget := { w with attrs := a } })
  let fields3 :=
    if pyTruthyDict data && pyTruthyStr pfx then
      let d := data.getD []
      let p := pfx.getD ""
      let lookup_type := getlist d (p ++ "-lookup_type")
      let lookup_value := getlist d (p ++ "-value")
      let fieldsA :=
        match lookup_type with
        | lt :: _ =>
          pyUpdate fields2 "lookup_type"
            (fun f => { f with kind :=
              FieldKind.choiceField [(some lt, some (build_lookup_label lt))] })
        | [] => fields2
      match lookup_type with
      | lt :: _ =>
        if !lookup_value.isEmpty then
          DynamicFilterForm.select_or_input_data fieldsA
            (get_filterset_field_data lt lookup_value) lookup_value
        else fieldsA
      | [] => fieldsA
    else fields2
  let fields4 := pyUpdate fields3 "lookup_type"
    (fun f =>
      let w := f.widget
      let a1 := pySet w.attrs "data-query-param-field_name" "[\"$lookup_field\"]"
      let a2 := pySet a1 "data-contenttype" contenttype
      let a3 := pySet a2 "data-url" "/lookup-choices/"
      let a4 := pySet a3 "class" "nautobot-select2-api lookup_type-select"
      { f with widget := { w with attrs := a4 } })
  pyUpdate fields4 "value"
    (fun f =>
      let w := f.widget
      let lookup_value_css := (pyGet w.attrs "class").getD ""
      let a := pySet w.attrs "class"
        (String.intercalate " " [lookup_value_css, "value-input form-control"])
      { f with widget := { w with attrs := a } })

/-! ## DynamicFilterFormBaseFormSet._construct_form (lines 346-373)
and dynamic_formset_factory (lines 376-391)

`_construct_form` builds a `defaults` dict and then applies
`defaults.update(kwargs)`; a key absent from the defaults dict is an
`Option.none` field.  The kwargs that Django can pass through
(`form_kwargs`) are modelled by `FormKwargOverride`; in this repository
they are always empty.
-/

structure DFFormSetState where
  auto_id : String
  pfx : String
  error_class : String
  is_bound : Bool
  data : List (String × List String)
  files : List (String × String)
  initial : List (List (String × PyValue))
  min_num : Nat
  initialFormCount : Nat

/-- Method add_prefix of BaseFormSet. -/
def add_prefix (s : String) (i : Nat) : String := s ++ "-" ++ toString i

structure ConstructedFormKwargs where
  auto_id : String
  pfx : String
  error_class : String
  use_required_attribute : Option Bool
  data : Option (List (String × List String))
  files : Option (List (String × String))
  initial : Option (List (String × PyValue))
  empty_permitted : Option Bool

structure FormKwargOverride where
  use_required_attribute : Option Bool
  empty_permitted : Option Bool
  initial : Option (List (String × PyValue))

/-- Python dict update `defaults.update(kwargs)` on a single key. -/
def overrideOpt {α : Type} (base ov : Option α) : Option α :=
  match ov with
  | some x => some x
  | Option.none => base

def DynamicFilterFormBaseFormSet.construct_form (fs : DFFormSetState) (i : Nat)
    (kw : FormKwargOverride) : ConstructedFormKwargs :=
  let baseInitial : Option (List (String × PyValue)) :=
    -- if self.initial and 'initial' not in kwargs:
    --   try: defaults['initial'] = self.initial[i] except IndexError: pass
    if !fs.initial.isEmpty && kw.initial.isNone then fs.initial.get? i
    else Option.none
  let baseEmpty : Option Bool :=
    -- Allow extra forms to be empty, unless they're part of the minimum forms
    if fs.initialFormCount ≤ i ∧ fs.min_num ≤ i then some true else Option.none
  { auto_id := fs.auto_id
    pfx := add_prefix fs.pfx i
    error_class := fs.error_class
    use_required_attribute := overrideOpt (some false) kw.use_required_attribute
    data := if fs.is_bound then some fs.data else Option.none
    files := if fs.is_bound then some fs.files else Option.none
    initial := overrideOpt baseInitial kw.initial
    empty_permitted := overrideOpt baseEmpty kw.empty_permitted }

/-- The class attribute `DynamicFilterForm.model`, shared by all
instances; `dynamic_formset_factory` assigns it. -/
structure GlobalState where
  dynamicFilterFormModel : Option Model

/-- The formset options handed to Django's `formset_factory`. -/
structure FormsetFactoryConfig where
  can_delete : Bool
  can_delete_extra : Bool
  extra : Nat

/-- Caller-supplied `**kwargs` of `dynamic_formset_factory` for the keys
that `params` also sets (`kwargs.update(params)` makes `params` win). -/
structure FactoryKwargs where
  can_delete : Option Bool
  can_delete_extra : Option Bool
  extra : Option Nat

def dynamic_formset_factory (_st : GlobalState) (model : Model)
    (_kwargs : FactoryKwargs) : GlobalState × FormsetFactoryConfig :=
  -- modelform.model = model  (class-level assignment on DynamicFilterForm)
  -- kwargs.update(params)    (params override the caller's kwargs)
  ({ dynamicFilterFormModel := some model },
   { can_delete := true, can_delete_extra := true, extra := 3 })

/-- The model a DynamicFilterForm constructed under class-attribute
state `st` will use (`self.model` resolves to the class attribute). -/
def DynamicFilterForm.constructedModel (st : GlobalState) : Option Model :=
  st.dynamicFilterFormModel

/-- A sample field: a required CharField labelled "Name" with a bare
TextInput widget. -/
def sampleBootstrapField : FormField :=
  { kind := FieldKind.charField, required := true, label := "Name",
    widget := { cls := WidgetClass.textInput, attrs := [], api_url := Option.none },
    initial := [] }

/-! ## Lemmas about the Python dict primitives -/

@[simp]
theorem pyGet_pySet_self {α : Type} (l : List (String × α)) (k : String) (v : α) :
    pyGet (pySet l k v) k = some v := by
  induction l with
  | nil => simp [pySet, pyGet]
  | cons hd tl ih =>
    obtain ⟨k0, v0⟩ := hd
    by_cases h : k0 = k
    · simp [pySet, pyGet, h]
    · simp [pySet, pyGet, h, ih]

theorem pyGet_pySet_ne {α : Type} (l : List (String × α)) (k k' : String) (v : α)
    (h : k' ≠ k) : pyGet (pySet l k v) k' = pyGet l k' := by
  induction l with
  | nil => simp [pySet, pyGet, Ne.symm h]
  | cons hd tl ih =>
    obtain ⟨k0, v0⟩ := hd
    by_cases h0 : k0 = k
    · subst h0
      simp [pySet, pyGet, Ne.symm h]
    · by_cases h1 : k0 = k'
      · subst h1
        simp [pySet, pyGet, h0]
      · simp [pySet, pyGet, h0, h1, ih]

theorem pyGet_pyUpdate_self {α : Type} (l : List (String × α)) (k : String)
    (f : α → α) (v : α) (h : pyGet l k = some v) :
    pyGet (pyUpdate l k f) k = some (f v) := by
  induction l with
  | nil => simp [pyGet] at h
  | cons hd tl ih =>
    obtain ⟨k0, v0⟩ := hd
    by_cases h0 : k0 = k
    · subst h0
      simp [pyGet] at h
      simp [pyUpdate, pyGet, h]
    · simp [pyGet, h0] at h
      simp [pyUpdate, pyGet, h0, ih h]

theorem pyGet_pyUpdate_ne {α : Type} (l : List (String × α)) (k k' : String)
    (f : α → α) (h : k' ≠ k) :
    pyGet (pyUpdate l k f) k' = pyGet l k' := by
  induction l with
  | nil => simp [pyUpdate]
  | cons hd tl ih =>
    obtain ⟨k0, v0⟩ := hd
    by_cases h0 : k0 = k
    · subst h0
      simp [pyUpdate, pyGet, Ne.symm h]
    · by_cases h1 : k0 = k'
      · subst h1
        simp [pyUpdate, pyGet, h0]
      · simp [pyUpdate, pyGet, h0, h1, ih]

/-! ## Helper lemmas about Python str.strip() -/

theorem dropWhile_eq_self_head (p : Char → Bool) (a : Char) (t : List Char)
    (h : List.dropWhile p (a :: t) = a :: t) : p a = false := by
  cases hp : p a with
  | false => rfl
  | true =>
    rw [List.dropWhile_cons, hp] at h
    simp only [if_true] at h
    have hl := (List.dropWhile_suffix (l := t) p).length_le
    rw [h] at hl
    simp at hl

theorem lstripL_append (xs ys : List Char) (hx : lstripL xs = xs) (hne : xs ≠ []) :
    lstripL (xs ++ ys) = xs ++ ys := by
  cases xs with
  | nil => exact absurd rfl hne
  | cons a t =>
    have ha : isPySpace a = false := dropWhile_eq_self_head isPySpace a t hx
    simp [lstripL, List.dropWhile_cons, ha]

theorem stripL_append_fc (xs : List Char) (hx : lstripL xs = xs) (hne : xs ≠ []) :
    stripL (xs ++ (' ' :: "form-control".data)) = xs ++ (' ' :: "form-control".data) := by
  unfold stripL
  rw [lstripL_append xs _ hx hne]
  have hrev : (xs ++ (' ' :: "form-control".data)).reverse
      = "form-control".data.reverse ++ (' ' :: xs.reverse) := by
    rw [List.reverse_append, List.reverse_cons]
    simp
  rw [hrev]
  have hfc : "form-control".data.reverse
      = ['l', 'o', 'r', 't', 'n', 'o', 'c', '-', 'm', 'r', 'o', 'f'] := by decide
  rw [hfc]
  have hl : isPySpace 'l' = false := by decide
  simp only [List.cons_append, List.dropWhile_cons, hl, if_false, Bool.false_eq_true,
    ite_false]
  rw [List.reverse_cons]
  simp [← hfc]

theorem pyStrip_join_fc (css : String) (h : lstripL css.data = css.data) :
    pyStrip (css ++ " " ++ "form-control")
      = if css = "" then "form-control" else css ++ " form-control" := by
  by_cases hc : css = ""
  · subst hc
    rw [if_pos rfl]
    decide
  · rw [if_neg hc]
    have hne : css.data ≠ [] := by
      intro h0
      exact hc (String.ext h0)
    apply String.ext
    have hdata : (css ++ " " ++ "form-control").data
        = css.data ++ (' ' :: "form-control".data) := by
      rw [String.data_append, String.data_append, List.append_assoc]
      rfl
    show stripL (css ++ " " ++ "form-control").data = (css ++ " form-control").data
    rw [hdata, stripL_append_fc css.data h hne, String.data_append]

/-! ## Helper lemmas about BootstrapMixin's staged attr updates -/

theorem pyGet_ite_set_ne {α : Type} {c : Prop} [Decidable c]
    (a : List (String × α)) (k : String) (v : α) (k' : String) (h : k' ≠ k) :
    pyGet (if c then pySet a k v else a) k' = pyGet a k' := by
  split_ifs
  · exact pyGet_pySet_ne a k k' v h
  · rfl

theorem pyGet_ite_set_ne2 {α : Type} {c : Prop} [Decidable c]
    (a : List (String × α)) (k : String) (v : α) (k' : String) (h : k' ≠ k) :
    pyGet (if c then a else pySet a k v) k' = pyGet a k' := by
  split_ifs
  · rfl
  · exact pyGet_pySet_ne a k k' v h

/-- The widget attrs produced by processField are the three staged
updates applied in order. -/
theorem processField_attrs (field : FormField) :
    (BootstrapMixin.processField field).widget.attrs = bootstrapStage3 field := by
  cases hc1 : exempt_widgets.contains field.widget.cls <;>
    cases hc2 : field.required && !(isinstanceFileInput field.widget.cls) <;>
      simp only [BootstrapMixin.processField, bootstrapStage3, bootstrapStage2,
        bootstrapStage1, hc1, hc2, Bool.false_eq_true, Bool.true_eq_false,
        if_true, if_false, ite_true, ite_false, eq_self_iff_true, apply_ite] <;>
      split_ifs <;> rfl

/-! ## Claim theorems -/

/-- Claim C1: ImportForm.clean enforces the single-object limit: a JSON
input whose parse result is not a mapping, and a YAML input whose body
contains the substring "\n---", both fail with the field-scoped error
"Import is limited to one object at a time." on the data field. -/
theorem C1_import_single_object_limit :
    (∀ (data : String) (v : PyValue) (yres : Except String PyValue),
      v.isDict = false →
      ImportForm.clean ImportFormat.json data (Except.ok v) yres
        = Except.error ⟨"data", "Import is limited to one object at a time."⟩)
    ∧ (∀ (data : String) (jres yres : Except String PyValue),
      strContains data "\n---" = true →
      ImportForm.clean ImportFormat.yaml data jres yres
        = Except.error ⟨"data", "Import is limited to one object at a time."⟩) := by
  constructor
  · intro data v yres hv
    simp [ImportForm.clean, hv, singleObjectMsg]
  · intro data jres yres hy
    simp [ImportForm.clean, hy, singleObjectMsg]

/-- Witness for C1 at a plain JSON array body and a concrete
two-document YAML body. -/
theorem C1_import_single_object_limit_witness :
    ImportForm.clean ImportFormat.json "[1, 2]"
        (Except.ok (PyValue.list [PyValue.int 1, PyValue.int 2]))
        (Except.ok PyValue.none)
      = Except.error ⟨"data", "Import is limited to one object at a time."⟩
    ∧ ImportForm.clean ImportFormat.yaml "a: 1\n---\nb: 2"
        (Except.ok PyValue.none) (Except.ok PyValue.none)
      = Except.error ⟨"data", "Import is limited to one object at a time."⟩ :=
  ⟨C1_import_single_object_limit.1 "[1, 2]"
      (PyValue.list [PyValue.int 1, PyValue.int 2]) (Except.ok PyValue.none) rfl,
   C1_import_single_object_limit.2 "a: 1\n---\nb: 2" (Except.ok PyValue.none)
      (Except.ok PyValue.none) rfl⟩

/-- Claim C2: a JSON input whose parse result is a single mapping makes
ImportForm.clean succeed with cleaned_data["data"] replaced by the
decoded dictionary. -/
theorem C2_import_json_mapping_ok (data : String)
    (kvs : List (String × PyValue)) (yres : Except String PyValue) :
    ImportForm.clean ImportFormat.json data (Except.ok (PyValue.dict kvs)) yres
      = Except.ok (PyValue.dict kvs) := by
  simp [ImportForm.clean, PyValue.isDict]

/-- Claim C3: parser exceptions are converted into validation errors
scoped to the data field ("Invalid JSON data: ..." / "Invalid YAML
data: ..."), and every outcome of clean is either success or an error
scoped to the data field — no parser exception escapes. -/
theorem C3_parse_errors_field_scoped :
    (∀ (data e : String) (yres : Except String PyValue),
      ImportForm.clean ImportFormat.json data (Except.error e) yres
        = Except.error ⟨"data", "Invalid JSON data: " ++ e⟩)
    ∧ (∀ (data e : String) (jres : Except String PyValue),
      strContains data "\n---" = false →
      ImportForm.clean ImportFormat.yaml data jres (Except.error e)
        = Except.error ⟨"data", "Invalid YAML data: " ++ e⟩)
    ∧ ∀ (fmt : ImportFormat) (d : String) (j y : Except String PyValue),
        (∃ v, ImportForm.clean fmt d j y = Except.ok v)
        ∨ (∃ msg, ImportForm.clean fmt d j y = Except.error ⟨"data", msg⟩) := by
  refine ⟨?_, ?_, ?_⟩
  · intro data e yres
    simp [ImportForm.clean]
  · intro data e jres hnd
    simp [ImportForm.clean, hnd]
  · intro fmt d j y
    cases fmt with
    | json =>
      cases j with
      | ok v =>
        cases hv : v.isDict with
        | true => exact Or.inl ⟨v, by simp [ImportForm.clean, hv]⟩
        | false =>
          exact Or.inr ⟨singleObjectMsg, by simp [ImportForm.clean, hv]⟩
      | error err =>
        exact Or.inr ⟨"Invalid JSON data: " ++ err, by simp [ImportForm.clean]⟩
    | yaml =>
      cases hd : strContains d "\n---" with
      | true => exact Or.inr ⟨singleObjectMsg, by simp [ImportForm.clean, hd]⟩
      | false =>
        cases y with
        | ok v => exact Or.inl ⟨v, by simp [ImportForm.clean, hd]⟩
        | error err =>
          exact Or.inr ⟨"Invalid YAML data: " ++ err, by simp [ImportForm.clean, hd]⟩

/-- Witness for C3 at concrete parser failures; the json input even
contains "\n---", which is irrelevant to the json branch. -/
theorem C3_parse_errors_field_scoped_witness :
    ImportForm.clean ImportFormat.json "[1,\n---" (Except.error "boom")
        (Except.ok PyValue.none)
      = Except.error ⟨"data", "Invalid JSON data: " ++ "boom"⟩
    ∧ ImportForm.clean ImportFormat.yaml "a: [" (Except.ok PyValue.none)
        (Except.error "boom")
      = Except.error ⟨"data", "Invalid YAML data: " ++ "boom"⟩ :=
  ⟨C3_parse_errors_field_scoped.1 "[1,\n---" "boom" (Except.ok PyValue.none),
   C3_parse_errors_field_scoped.2.1 "a: [" "boom" (Except.ok PyValue.none) rfl⟩

/-- Claim C4: with use_regex true, an uncompilable find pattern yields
the field-scoped error "Invalid regular expression" on find; with
use_regex false, no regex compilation check is applied at all. -/
theorem C4_bulk_rename_regex_validation (f : String) (r : String → Bool)
    (hf : r f = true) :
    BulkRenameForm.clean (some true) (some f) r
      = CleanOutcome.validationError "find" "Invalid regular expression"
    ∧ ∀ (fv : Option String) (r' : String → Bool),
        BulkRenameForm.clean (some false) fv r' = CleanOutcome.ok := by
  constructor
  · simp [BulkRenameForm.clean, hf]
  · intro fv r'
    simp [BulkRenameForm.clean]

/-- Witness for C4 at the unparsable pattern "(" with a compile oracle
that raises on it. -/
theorem C4_bulk_rename_regex_validation_witness :
    BulkRenameForm.clean (some true) (some "(") (fun p => p == "(")
      = CleanOutcome.validationError "find" "Invalid regular expression"
    ∧ BulkRenameForm.clean (some false) (some "(") (fun p => p == "(")
      = CleanOutcome.ok :=
  ⟨(C4_bulk_rename_regex_validation "(" (fun p => p == "(") rfl).1,
   (C4_bulk_rename_regex_validation "(" (fun p => p == "(") rfl).2
      (some "(") (fun p => p == "(")⟩

/-- Claim C9: when "find" is absent from cleaned_data (its field-level
validation failed) while use_regex is true, BulkRenameForm.clean hits
the dictionary lookup's error branch — a KeyError on "find" — instead
of returning a field-scoped validation error. -/
theorem C9_bulk_rename_find_keyerror (r : String → Bool) :
    BulkRenameForm.clean (some true) Option.none r
      = CleanOutcome.keyError "find" := by
  simp [BulkRenameForm.clean]

/-- Claim C6: BootstrapMixin treats every field by three independent
rules: a widget whose exact class is not exempt gets "form-control"
appended to its css class (preserving existing classes); a required
field whose widget is not a FileInput instance gets required="required";
a widget without a placeholder gets the field's label as placeholder. -/
theorem C6_bootstrap_mixin (field : FormField) :
    (∀ css : String, exempt_widgets.contains field.widget.cls = false →
      (pyGet field.widget.attrs "class").getD "" = css →
      pyGet (BootstrapMixin.processField field).widget.attrs "class"
          = some (pyStrip (css ++ " " ++ "form-control"))
        ∧ (lstripL css.data = css.data →
          pyGet (BootstrapMixin.processField field).widget.attrs "class"
            = some (if css = "" then "form-control" else css ++ " form-control")))
    ∧ (field.required = true → isinstanceFileInput field.widget.cls = false →
      pyGet (BootstrapMixin.processField field).widget.attrs "required"
        = some "required")
    ∧ (pyGet field.widget.attrs "placeholder" = Option.none →
      pyGet (BootstrapMixin.processField field).widget.attrs "placeholder"
        = some field.label) := by
  refine ⟨?_, ?_, ?_⟩
  · intro css hex hcss
    have hclass : pyGet (BootstrapMixin.processField field).widget.attrs "class"
        = some (pyStrip (css ++ " " ++ "form-control")) := by
      rw [processField_attrs, bootstrapStage3, pyGet_ite_set_ne _ _ _ _ (by decide),
        bootstrapStage2, pyGet_ite_set_ne _ _ _ _ (by decide), bootstrapStage1]
      simp only [hex, Bool.false_eq_true, if_false, ite_false, hcss,
        pyGet_pySet_self]
    refine ⟨hclass, fun hcl => ?_⟩
    rw [hclass, pyStrip_join_fc css hcl]
  · intro hreq hfi
    rw [processField_attrs, bootstrapStage3, pyGet_ite_set_ne _ _ _ _ (by decide),
      bootstrapStage2]
    simp only [hreq, hfi, Bool.not_false, Bool.and_self, if_true, ite_true,
      pyGet_pySet_self]
  · intro hph
    have hp : pyGet (bootstrapStage2 field) "placeholder" = Option.none := by
      rw [bootstrapStage2, pyGet_ite_set_ne _ _ _ _ (by decide),
        bootstrapStage1, pyGet_ite_set_ne2 _ _ _ _ (by decide)]
      exact hph
    rw [processField_attrs, bootstrapStage3]
    simp only [hp, Option.isNone_none, eq_self_iff_true, if_true, ite_true,
      pyGet_pySet_self]

/-- Witness for C6 on a concrete required text field without css
classes or placeholder. -/
theorem C6_bootstrap_mixin_witness :
    pyGet (BootstrapMixin.processField sampleBootstrapField).widget.attrs "class"
      = some "form-control"
    ∧ pyGet (BootstrapMixin.processField sampleBootstrapField).widget.attrs "required"
      = some "required"
    ∧ pyGet (BootstrapMixin.processField sampleBootstrapField).widget.attrs "placeholder"
      = some "Name" := by
  have h := C6_bootstrap_mixin sampleBootstrapField
  exact ⟨(h.1 "" rfl rfl).2 rfl, h.2.1 rfl rfl, h.2.2 rfl⟩

/-- Claim C7: the address/prefix mixins use a supplied initial value
unchanged, seed a missing one from the instance's computed attribute,
and on clean write the cleaned value back onto the instance
attribute. -/
theorem C7_address_prefix_mixins
    (initial cleaned : List (String × PyValue)) (v : PyValue)
    (ai : AddressInstance) (px : PrefixInstance)
    (oa : Option AddressInstance) (op : Option PrefixInstance) :
    (pyGet initial "address" = some v →
      AddressFieldMixin.initInitial initial oa = initial)
    ∧ (pyGet initial "address" = Option.none →
      pyGet (AddressFieldMixin.initInitial initial (some ai)) "address"
        = some ai.address)
    ∧ (pyGet cleaned "address" = some v →
      (AddressFieldMixin.clean ai cleaned).address = v)
    ∧ (pyGet initial "prefix" = some v →
      PrefixFieldMixin.initInitial initial op = initial)
    ∧ (pyGet initial "prefix" = Option.none →
      pyGet (PrefixFieldMixin.initInitial initial (some px)) "prefix"
        = some px.pfxAttr)
    ∧ (pyGet cleaned "prefix" = some v →
      (PrefixFieldMixin.clean px cleaned).pfxAttr = v) := by
  refine ⟨?_, ?_, ?_, ?_, ?_, ?_⟩
  · intro h
    simp [AddressFieldMixin.initInitial, h]
  · intro h
    simp [AddressFieldMixin.initInitial, h]
  · intro h
    simp [AddressFieldMixin.clean, h]
  · intro h
    simp [PrefixFieldMixin.initInitial, h]
  · intro h
    simp [PrefixFieldMixin.initInitial, h]
  · intro h
    simp [PrefixFieldMixin.clean, h]

/-- Witness for C7 on concrete initial/cleaned dicts and instances. -/
theorem C7_address_prefix_mixins_witness :
    AddressFieldMixin.initInitial [("address", PyValue.str "10.0.0.1/24")]
        (some ⟨PyValue.str "10.9.9.9/32"⟩)
      = [("address", PyValue.str "10.0.0.1/24")]
    ∧ pyGet (AddressFieldMixin.initInitial []
        (some ⟨PyValue.str "10.9.9.9/32"⟩)) "address"
      = some (PyValue.str "10.9.9.9/32")
    ∧ (AddressFieldMixin.clean ⟨PyValue.none⟩
        [("address", PyValue.str "10.0.0.1/24")]).address
      = PyValue.str "10.0.0.1/24"
    ∧ PrefixFieldMixin.initInitial [("prefix", PyValue.str "10.0.0.0/8")]
        (some ⟨PyValue.str "10.1.0.0/16"⟩)
      = [("prefix", PyValue.str "10.0.0.0/8")]
    ∧ pyGet (PrefixFieldMixin.initInitial []
        (some ⟨PyValue.str "10.1.0.0/16"⟩)) "prefix"
      = some (PyValue.str "10.1.0.0/16")
    ∧ (PrefixFieldMixin.clean ⟨PyValue.none⟩
        [("prefix", PyValue.str "10.0.0.0/8")]).pfxAttr
      = PyValue.str "10.0.0.0/8" := by
  refine ⟨?_, ?_, ?_, ?_, ?_, ?_⟩
  · exact (C7_address_prefix_mixins [("address", PyValue.str "10.0.0.1/24")] []
      (PyValue.str "10.0.0.1/24") ⟨PyValue.none⟩ ⟨PyValue.none⟩
      (some ⟨PyValue.str "10.9.9.9/32"⟩) Option.none).1 rfl
  · exact (C7_address_prefix_mixins [] [] (PyValue.str "10.9.9.9/32")
      ⟨PyValue.str "10.9.9.9/32"⟩ ⟨PyValue.none⟩ Option.none Option.none).2.1 rfl
  · exact (C7_address_prefix_mixins [] [("address", PyValue.str "10.0.0.1/24")]
      (PyValue.str "10.0.0.1/24") ⟨PyValue.none⟩ ⟨PyValue.none⟩
      Option.none Option.none).2.2.1 rfl
  · exact (C7_address_prefix_mixins [("prefix", PyValue.str "10.0.0.0/8")] []
      (PyValue.str "10.0.0.0/8") ⟨PyValue.none⟩ ⟨PyValue.none⟩
      Option.none (some ⟨PyValue.str "10.1.0.0/16"⟩)).2.2.2.1 rfl
  · exact (C7_address_prefix_mixins [] [] (PyValue.str "10.1.0.0/16")
      ⟨PyValue.none⟩ ⟨PyValue.str "10.1.0.0/16"⟩ Option.none Option.none).2.2.2.2.1 rfl
  · exact (C7_address_prefix_mixins [] [("prefix", PyValue.str "10.0.0.0/8")]
      (PyValue.str "10.0.0.0/8") ⟨PyValue.none⟩ ⟨PyValue.none⟩
      Option.none Option.none).2.2.2.2.2 rfl

/-- Claim C5: select_or_input_data replaces the value field according
to the reported field data type: "static-choices" yields a ChoiceField
with a StaticSelect2 widget whose multiple attribute is set iff
allow_multiple; "dynamic-choices" yields a ChoiceField with an
APISelectMultiple widget pointed at the reported data_url; any other
type leaves the fields unchanged — and the class-level value field is a
plain-text CharField. -/
theorem C5_select_or_input_data (fields : List (String × FormField))
    (fd : FilterFieldData) (choice : List String) :
    (fd.type = "static-choices" →
      ∃ fld, pyGet (DynamicFilterForm.select_or_input_data fields fd choice) "value"
          = some fld
        ∧ fld.kind = FieldKind.choiceField fd.choices
        ∧ fld.widget.cls = WidgetClass.staticSelect2
        ∧ pyGet fld.widget.attrs "multiple"
            = (if fd.allow_multiple then some "true" else Option.none))
    ∧ (fd.type = "dynamic-choices" →
      ∃ fld, pyGet (DynamicFilterForm.select_or_input_data fields fd choice) "value"
          = some fld
        ∧ fld.kind = FieldKind.choiceField fd.choices
        ∧ fld.widget.cls = WidgetClass.apiSelectMultiple
        ∧ fld.widget.api_url = some fd.data_url)
    ∧ (fd.type ≠ "static-choices" → fd.type ≠ "dynamic-choices" →
      DynamicFilterForm.select_or_input_data fields fd choice = fields)
    ∧ (∃ fld, pyGet DynamicFilterForm.classFields "value" = some fld
        ∧ fld.kind = FieldKind.charField
        ∧ fld.widget.cls = WidgetClass.textInput) := by
  refine ⟨?_, ?_, ?_, ?_⟩
  · intro h
    unfold DynamicFilterForm.select_or_input_data
    rw [if_pos h]
    refine ⟨_, pyGet_pySet_self _ _ _, rfl, rfl, ?_⟩
    cases fd.allow_multiple with
    | true => simp [pyGet]
    | false => simp [pyGet]
  · intro h
    have h1 : ¬ fd.type = "static-choices" := by
      rw [h]
      decide
    unfold DynamicFilterForm.select_or_input_data
    rw [if_neg h1, if_pos h]
    exact ⟨_, pyGet_pySet_self _ _ _, rfl, rfl, rfl⟩
  · intro h1 h2
    unfold DynamicFilterForm.select_or_input_data
    rw [if_neg h1, if_neg h2]
  · exact ⟨_, rfl, rfl, rfl⟩

/-- Witness for C5 on concrete static, dynamic and plain field data. -/
theorem C5_select_or_input_data_witness :
    (∃ fld, pyGet (DynamicFilterForm.select_or_input_data []
        ⟨"static-choices", true, [(some "a", some "A")], "", Option.none, Option.none⟩
        ["a"]) "value" = some fld
      ∧ fld.kind = FieldKind.choiceField [(some "a", some "A")]
      ∧ fld.widget.cls = WidgetClass.staticSelect2
      ∧ pyGet fld.widget.attrs "multiple" = some "true")
    ∧ (∃ fld, pyGet (DynamicFilterForm.select_or_input_data []
        ⟨"dynamic-choices", false, [], "/api/x/", Option.none, Option.none⟩
        ["u"]) "value" = some fld
      ∧ fld.kind = FieldKind.choiceField []
      ∧ fld.widget.cls = WidgetClass.apiSelectMultiple
      ∧ fld.widget.api_url = some "/api/x/")
    ∧ DynamicFilterForm.select_or_input_data []
        ⟨"other", false, [], "", Option.none, Option.none⟩ [] = [] :=
  ⟨(C5_select_or_input_data []
      ⟨"static-choices", true, [(some "a", some "A")], "", Option.none, Option.none⟩
      ["a"]).1 rfl,
   (C5_select_or_input_data []
      ⟨"dynamic-choices", false, [], "/api/x/", Option.none, Option.none⟩
      ["u"]).2.1 rfl,
   (C5_select_or_input_data []
      ⟨"other", false, [], "", Option.none, Option.none⟩ []).2.2.1
      (by decide) (by decide)⟩

/-- Claim C8: _construct_form always puts use_required_attribute=False
in the form kwargs; forms at an index at or beyond both the initial
form count and min_num get empty_permitted=True; the factory fixes
can_delete=True, can_delete_extra=True, extra=3. -/
theorem C8_formset_construction (fs : DFFormSetState) (i : Nat)
    (kw : FormKwargOverride) (st : GlobalState) (m : Model) (fk : FactoryKwargs)
    (h1 : kw.use_required_attribute = Option.none) :
    (DynamicFilterFormBaseFormSet.construct_form fs i kw).use_required_attribute
      = some false
    ∧ (kw.empty_permitted = Option.none → fs.initialFormCount ≤ i →
        fs.min_num ≤ i →
        (DynamicFilterFormBaseFormSet.construct_form fs i kw).empty_permitted
          = some true)
    ∧ (dynamic_formset_factory st m fk).2.can_delete = true
    ∧ (dynamic_formset_factory st m fk).2.can_delete_extra = true
    ∧ (dynamic_formset_factory st m fk).2.extra = 3 := by
  refine ⟨?_, ?_, rfl, rfl, rfl⟩
  · simp [DynamicFilterFormBaseFormSet.construct_form, overrideOpt, h1]
  · intro h2 h3 h4
    simp [DynamicFilterFormBaseFormSet.construct_form, overrideOpt, h2, h3, h4]

/-- Witness for C8 on a concrete unbound formset state at index 1. -/
theorem C8_formset_construction_witness :
    (DynamicFilterFormBaseFormSet.construct_form
        ⟨"id_%s", "form", "errorlist", false, [], [], [], 0, 0⟩ 1
        ⟨Option.none, Option.none, Option.none⟩).use_required_attribute
      = some false
    ∧ (DynamicFilterFormBaseFormSet.construct_form
        ⟨"id_%s", "form", "errorlist", false, [], [], [], 0, 0⟩ 1
        ⟨Option.none, Option.none, Option.none⟩).empty_permitted
      = some true
    ∧ (dynamic_formset_factory ⟨Option.none⟩ ⟨"dcim", "device"⟩
        ⟨Option.none, Option.none, Option.none⟩).2.extra = 3 := by
  have h := C8_formset_construction
    ⟨"id_%s", "form", "errorlist", false, [], [], [], 0, 0⟩ 1
    ⟨Option.none, Option.none, Option.none⟩ ⟨Option.none⟩ ⟨"dcim", "device"⟩
    ⟨Option.none, Option.none, Option.none⟩ rfl
  exact ⟨h.1, h.2.1 rfl (by decide) (by decide), h.2.2.2.2⟩

/-- Claim C10: dynamic_formset_factory assigns the shared class-level
attribute DynamicFilterForm.model: after a second factory call with a
different model, forms constructed from then on — including forms of
formsets produced by the earlier call — resolve self.model to the
second model, whatever the earlier call or prior state was. -/
theorem C10_factory_mutates_class_model (st : GlobalState) (m1 m2 : Model)
    (k1 k2 : FactoryKwargs) :
    DynamicFilterForm.constructedModel
        (dynamic_formset_factory (dynamic_formset_factory st m1 k1).1 m2 k2).1
      = some m2
    ∧ DynamicFilterForm.constructedModel (dynamic_formset_factory st m1 k1).1
      = some m1 := by
  exact ⟨rfl, rfl⟩

end Nautobot
